import Mathlib

/-!
Shallow embedding of the session-orchestration server in `src/server/index.js`
(rooms, connections, role-isolated message routing, the upload pipeline with its
delayed doctor/patient notifications, video-call signaling and the socket rate
limiter).  External collaborators (the language model, content extraction,
JSON parsing of model output) are abstracted as oracle parameters: an event
carries the text the model returned, and `Option` encodes call/parse failure,
exactly at the `try/catch` boundaries of the source.  The single-threaded
event loop of the source is modelled by a step function on a global state;
`setTimeout` callbacks are modelled as pending tasks fired by a separate event
(they read the live state at firing time, as the closures in the source do).
-/

namespace ArogyaMitra

/-- A single apostrophe character, used to build string literals of the source
(such as the emergency keyword for breathing trouble) without a bare quote. -/
def apos : String := (Char.ofNat 39).toString

/-- `s.toLowerCase()` (ASCII letters; the markers and keywords matched in the
source are ASCII). -/
def lowerStr (s : String) : String := ⟨s.data.map Char.toLower⟩

/-- Does `pat` occur at the head of `s`? -/
def leadMatch : List Char → List Char → Bool
  | [], _ => true
  | _ :: _, [] => false
  | a :: as, b :: bs => a == b && leadMatch as bs

/-- Does `pat` occur anywhere in `s`? -/
def containsChars (pat : List Char) : List Char → Bool
  | [] => pat.isEmpty
  | c :: rest => leadMatch pat (c :: rest) || containsChars pat rest

/-- JavaScript `s.includes(pat)`. -/
def containsSub (s pat : String) : Bool := containsChars pat.data s.data

/-- JavaScript `s.substring(0, n)`. -/
def strTake (s : String) (n : Nat) : String := ⟨s.data.take n⟩

/-- JavaScript truthiness of a nullable string (`undefined`/`null` and the
empty string are falsy). -/
def jsTruthy : Option String → Bool
  | some s => !(s == "")
  | none => false

/-- JavaScript `a || b` on nullable strings. -/
def jsOrStr (a b : Option String) : Option String := if jsTruthy a then a else b

/-- Lookup in a JavaScript object used as a map (`rooms[k]`, `users[k]`),
keys in insertion order. -/
def mapFind {α : Type} (m : List (String × α)) (k : String) : Option α :=
  (m.find? (fun p => p.1 == k)).map (fun p => p.2)

/-- Assignment `m[k] = v`: replaces the value in place if the key exists
(JavaScript keeps the original key position), otherwise appends. -/
def mapSet {α : Type} (m : List (String × α)) (k : String) (v : α) : List (String × α) :=
  match m with
  | [] => [(k, v)]
  | p :: rest => if p.1 == k then (k, v) :: rest else p :: mapSet rest k v

/-- JavaScript `delete m[k]`. -/
def mapErase {α : Type} (m : List (String × α)) (k : String) : List (String × α) :=
  m.filter (fun p => !(p.1 == k))

/-! ## Data model (the objects built by `src/server/index.js`) -/

/-- An entry of `roomInvitations` (`/api/create-room`). -/
structure Invitation where
  roomId : String
  patientEmail : String
  doctorEmail : String
  createdAt : Nat
  videoEnabled : Bool
deriving DecidableEq, Repr

/-- `metrics.diagnosis` of `extractHealthMetrics`. -/
structure Diagnosis where
  primary : String
  confidence : Nat
  riskLevel : String
  summary : String
deriving DecidableEq, Repr

/-- An entry of `metrics.keyFindings`. -/
structure KeyFinding where
  parameter : String
  value : String
  normalRange : String
  status : String
  concern : String
deriving DecidableEq, Repr

/-- The structured metrics object stored in `rooms[roomId].healthMetrics`.
`vitals` is a free-form JSON object in the source; it is modelled shallowly as
an association list (the fallback sets it to the empty object). -/
structure HealthMetrics where
  vitals : List (String × String)
  diagnosis : Diagnosis
  keyFindings : List KeyFinding
  recommendations : List String
deriving DecidableEq, Repr

/-- The JSON object parsed from the model's reply inside `extractHealthMetrics`,
before the defaulting of absent fields (`if (!metrics.vitals) ...`). -/
structure RawMetrics where
  vitals : Option (List (String × String))
  diagnosis : Option Diagnosis
  keyFindings : Option (List KeyFinding)
  recommendations : Option (List String)
deriving DecidableEq, Repr

/-- The object returned by the `catch` branch of `extractHealthMetrics`
(model call failed or its reply did not parse as JSON). -/
def fallbackMetrics : HealthMetrics :=
  { vitals := []
    diagnosis :=
      { primary := "Analysis Error"
        confidence := 0
        riskLevel := "low"
        summary := "Unable to extract metrics from document" }
    keyFindings := []
    recommendations := ["Please re-upload the document or check file format"] }

/-- `extractHealthMetrics` with the model call and `JSON.parse` abstracted as
`parseResult` (`none` = the call failed or the reply did not parse; `some m` =
the parsed object, with possibly absent fields).  The prompt built from the
content and conversation history only feeds the external call and does not
otherwise influence the result. -/
def extractHealthMetrics (parseResult : Option RawMetrics) : HealthMetrics :=
  match parseResult with
  | some m =>
      { vitals := m.vitals.getD []
        diagnosis := m.diagnosis.getD
          { primary := "Monitoring"
            confidence := 0
            riskLevel := "low"
            summary := "No specific diagnosis identified" }
        keyFindings := m.keyFindings.getD []
        recommendations := m.recommendations.getD [] }
  | none => fallbackMetrics

/-- `documentSummary.keyMetrics` built by `generateDocumentSummary`. -/
structure KeyMetricsSummary where
  diagnosis : String
  riskLevel : String
  criticalFindings : List String
deriving DecidableEq, Repr

/-- The object built by `generateDocumentSummary`. -/
structure DocumentSummary where
  fileName : String
  timestamp : Nat
  briefSummary : String
  keyMetrics : KeyMetricsSummary
  fullAnalysis : String
  rawContent : String
deriving DecidableEq, Repr

/-- `generateDocumentSummary(content, fileName, analysis, metrics)`; `metrics`
is always the (non-null, already defaulted) result of `extractHealthMetrics`
at every call site. -/
def generateDocumentSummary (content fileName analysis : String)
    (metrics : HealthMetrics) (now : Nat) : DocumentSummary :=
  { fileName := fileName
    timestamp := now
    briefSummary := if analysis == "" then "No analysis available" else strTake analysis 500
    keyMetrics :=
      { diagnosis := if metrics.diagnosis.primary == "" then "Unknown" else metrics.diagnosis.primary
        riskLevel := if metrics.diagnosis.riskLevel == "" then "low" else metrics.diagnosis.riskLevel
        criticalFindings :=
          (metrics.keyFindings.take 3).map (fun f => f.parameter ++ ": " ++ f.value) }
    fullAnalysis := analysis
    rawContent := strTake content 1000 }

/-- An entry of `rooms[roomId].files` (`fileInfo` in the upload handler).
The source names the MIME field `type`. -/
structure UploadedFile where
  name : String
  path : String
  url : String
  type : String
  content : String
  analysis : String
  documentSummary : Option DocumentSummary
  uploadedAt : Nat
  uploadedBy : String
deriving DecidableEq, Repr

/-- `fileData` attached to the broadcast upload chat message. -/
structure FileData where
  name : String
  url : String
  type : String
  analysis : String
deriving DecidableEq, Repr

/-- An entry of `rooms[roomId].messages`.  Fields a given message object does
not carry in the source are `none`/`false` here. -/
structure Message where
  role : String
  nickname : Option String := none
  content : String
  timestamp : Nat
  avatarUrl : Option String := none
  fileData : Option FileData := none
  isFile : Bool := false
  forRole : Option String := none
  isPrivate : Bool := false
deriving DecidableEq, Repr

/-- A room (`rooms[roomId]`).  `allowedPatientEmail`/`doctorEmail` are present
only on rooms created through `/api/create-room`; the lazy initialisation in
`join-room` leaves them absent. -/
structure Room where
  messages : List Message
  files : List UploadedFile
  patient : Option String
  doctor : Option String
  patientAvatar : Option String
  doctorAvatar : Option String
  healthMetrics : Option HealthMetrics
  allowedPatientEmail : Option String
  doctorEmail : Option String
  videoCallActive : Bool
  videoParticipants : List String
deriving DecidableEq, Repr

/-- The room object built by the lazy initialisation in the `join-room`
handler. -/
def lazyRoom : Room :=
  { messages := []
    files := []
    patient := none
    doctor := none
    patientAvatar := none
    doctorAvatar := none
    healthMetrics := none
    allowedPatientEmail := none
    doctorEmail := none
    videoCallActive := false
    videoParticipants := [] }

/-- The room object built by `/api/create-room`. -/
def initialRoom (patientEmail doctorEmail : String) : Room :=
  { lazyRoom with
      allowedPatientEmail := some (lowerStr patientEmail)
      doctorEmail := some (lowerStr doctorEmail) }

/-- An entry of `users` (`users[socket.id] = { roomId, nickname, role, avatarUrl, email }`). -/
structure UserInfo where
  roomId : String
  nickname : String
  role : String
  avatarUrl : Option String
  email : String
deriving DecidableEq, Repr

/-- A server→client event payload (`socket.emit`/`io.to(...).emit`). -/
inductive Payload where
  | chatMsg (m : Message)
  | aiMsg (message : String) (forRole : String) (isPrivate : Bool)
  | roomHistory (messages : List Message) (files : List UploadedFile)
  | filesUpdated (files : List UploadedFile)
  | healthMetricsUpdated (metrics : HealthMetrics)
  | videoCallActiveNotice
  | userJoined (nickname role : String) (patient doctor patientAvatar doctorAvatar : Option String)
  | userLeft (nickname role : String) (patient doctor : Option String)
  | videoError (message : String)
  | videoCallStarted (startedBy roomId : String)
  | videoCallEnded (endedBy : String)
deriving DecidableEq, Repr

/-- A pending `setTimeout` callback scheduled by the upload handler, with the
values its closure captured. -/
inductive Timer where
  | doctorAnalysis (roomId analysis : String)
  | patientNotice (roomId uploadedBy fileName : String)
deriving DecidableEq, Repr

/-- The process-wide mutable state (`rooms`, `users`, `roomInvitations`, the
socket.io room membership, and the not-yet-fired timers). -/
structure ServerState where
  rooms : List (String × Room)
  users : List (String × UserInfo)
  roomInvitations : List (String × Invitation)
  membership : List (String × List String)
  pending : List Timer
deriving DecidableEq, Repr

def initialState : ServerState :=
  { rooms := [], users := [], roomInvitations := [], membership := [], pending := [] }

/-- Sockets currently in the socket.io room `roomId`. -/
def roomMembers (st : ServerState) (roomId : String) : List String :=
  (mapFind st.membership roomId).getD []

/-- `io.to(roomId).emit(...)`: one delivery per member socket. -/
def broadcast (st : ServerState) (roomId : String) (p : Payload) : List (String × Payload) :=
  (roomMembers st roomId).map (fun t => (t, p))

/-! ## Handlers -/

/-- `POST /api/create-room` (result Bool: request accepted, i.e. both emails
present; the generated hash and roomId are parameters here since the source
draws them from `crypto`/`Date.now()`). -/
def createRoomHandler (st : ServerState) (roomHash roomId doctorEmail patientEmail : String)
    (now : Nat) : ServerState × Bool :=
  if doctorEmail == "" || patientEmail == "" then (st, false)
  else
    ({ st with
        roomInvitations := mapSet st.roomInvitations roomHash
          { roomId := roomId
            patientEmail := lowerStr patientEmail
            doctorEmail := lowerStr doctorEmail
            createdAt := now
            videoEnabled := false }
        rooms := mapSet st.rooms roomId (initialRoom patientEmail doctorEmail) },
     true)

/-- The `join-room` socket handler. -/
def joinRoomHandler (st : ServerState) (sid roomId nickname role : String)
    (avatarUrl : Option String) (email : String) : ServerState × List (String × Payload) :=
  -- socket.join(roomId)
  let cur := (mapFind st.membership roomId).getD []
  let mem := mapSet st.membership roomId (if cur.contains sid then cur else cur ++ [sid])
  let rm0 := (mapFind st.rooms roomId).getD lazyRoom
  let users1 := mapSet st.users sid
    { roomId := roomId, nickname := nickname, role := role, avatarUrl := avatarUrl, email := email }
  let rm1 :=
    if role == "patient" then { rm0 with patient := some nickname, patientAvatar := avatarUrl }
    else { rm0 with doctor := some nickname, doctorAvatar := avatarUrl }
  let st1 : ServerState :=
    { st with membership := mem, users := users1, rooms := mapSet st.rooms roomId rm1 }
  -- role-filtered history replay
  let filteredMessages := rm1.messages.filter (fun m =>
    if m.role == "AI Assistant" then !(jsTruthy m.forRole) || m.forRole == some role else true)
  let ds :=
    [(sid, Payload.roomHistory filteredMessages rm1.files)]
    ++ (match rm1.healthMetrics with
        | some m => [(sid, Payload.healthMetricsUpdated m)]
        | none => [])
    ++ (if rm1.videoCallActive then [(sid, Payload.videoCallActiveNotice)] else [])
    ++ broadcast st1 roomId
        (Payload.userJoined nickname role rm1.patient rm1.doctor rm1.patientAvatar rm1.doctorAvatar)
  (st1, ds)

/-- The `disconnect` handler.  Socket.io removes the socket from its rooms
before the `disconnect` listener runs, so the `user-left` broadcast does not
reach the leaving socket. -/
def disconnectHandler (st : ServerState) (sid : String) : ServerState × List (String × Payload) :=
  let mem := st.membership.map (fun p => (p.1, p.2.filter (fun x => !(x == sid))))
  let st0 : ServerState := { st with membership := mem }
  match mapFind st0.users sid with
  | none => (st0, [])
  | some u =>
    match mapFind st0.rooms u.roomId with
    | none => ({ st0 with users := mapErase st0.users sid }, [])
    | some rm =>
      let rm1 :=
        if u.role == "patient" then { rm with patient := none, patientAvatar := none }
        else { rm with doctor := none, doctorAvatar := none }
      let st1 : ServerState :=
        { st0 with rooms := mapSet st0.rooms u.roomId rm1, users := mapErase st0.users sid }
      (st1, broadcast st1 u.roomId (Payload.userLeft u.nickname u.role rm1.patient rm1.doctor))

/-- The chat message object built by the `chat-message` handler. -/
def mkChatMessage (u : UserInfo) (message : String) (avatarUrl : Option String)
    (now : Nat) : Message :=
  { role := if u.role == "doctor" then "Doctor" else "Patient"
    nickname := some u.nickname
    content := message
    timestamp := now
    avatarUrl := jsOrStr avatarUrl u.avatarUrl }

/-- The private AI reply appended and sent by the `chat-message` handler. -/
def mkAiMessage (aiReply : String) (role : String) (now : Nat) : Message :=
  { role := "AI Assistant"
    content := aiReply
    timestamp := now
    forRole := some role
    isPrivate := true }

/-- The `chat-message` socket handler.  `aiReply` abstracts the result of
`getAIResponse` (opaque model text, or its fixed apology on failure).  When
the sender is unknown the source returns early; when the room is absent the
source throws on `rooms[roomId].messages` before any mutation or emission,
modelled as a no-op. -/
def chatMessageHandler (st : ServerState) (sid roomId message : String)
    (avatarUrl : Option String) (aiReply : String) (now : Nat) :
    ServerState × List (String × Payload) :=
  match mapFind st.users sid with
  | none => (st, [])
  | some u =>
    match mapFind st.rooms roomId with
    | none => (st, [])
    | some rm =>
      let isAiCall := containsSub (lowerStr message) "@ai"
      let cm := mkChatMessage u message avatarUrl now
      let rm1 := { rm with messages := rm.messages ++ [cm] }
      let st1 : ServerState := { st with rooms := mapSet st.rooms roomId rm1 }
      if isAiCall then
        let aiMessage := mkAiMessage aiReply u.role now
        let rm2 := { rm1 with messages := rm1.messages ++ [aiMessage] }
        ({ st1 with rooms := mapSet st1.rooms roomId rm2 },
         [(sid, Payload.chatMsg cm), (sid, Payload.aiMsg aiReply u.role true)])
      else (st1, broadcast st1 roomId (Payload.chatMsg cm))

/-- `POST /upload`, after the multipart parse and `extractFileContent` (whose
result is the `content` parameter; the extraction sentinels are plain strings
the length/sentinel test below inspects).  `analysisResult` abstracts the text
produced by `performTemporalAnalysis`/`analyzeFileWithXAI`; `metricsParse`
abstracts the model call plus `JSON.parse` inside `extractHealthMetrics`.
The two `setTimeout` callbacks are enqueued as pending timers in firing order
(the 500 ms patient notice precedes the 1000 ms doctor analysis).  The HTTP
response itself is not tracked. -/
def uploadHandler (st : ServerState) (roomId uploadedBy uploaderRole : String)
    (fileName filePath fileUrl mimeType content analysisResult : String)
    (metricsParse : Option RawMetrics) (now : Nat) :
    ServerState × List (String × Payload) :=
  let analyzable := decide (content.length > 20) && !(containsSub content "no text detected")
  let analysis := if analyzable then analysisResult else ""
  let metrics : Option HealthMetrics :=
    if analyzable then some (extractHealthMetrics metricsParse) else none
  let documentSummary : Option DocumentSummary :=
    metrics.map (fun m => generateDocumentSummary content fileName analysis m now)
  let fileInfo : UploadedFile :=
    { name := fileName
      path := filePath
      url := fileUrl
      type := mimeType
      content := strTake content 5000
      analysis := analysis
      documentSummary := documentSummary
      uploadedAt := now
      uploadedBy := if uploadedBy == "" then "Unknown" else uploadedBy }
  match mapFind st.rooms roomId with
  | none => (st, [])
  | some rm =>
    let rm1 := match metrics with
      | some m => { rm with healthMetrics := some m }
      | none => rm
    let dsMetrics := match metrics with
      | some m => broadcast st roomId (Payload.healthMetricsUpdated m)
      | none => []
    let fileMessage : Message :=
      { role := if uploadedBy == "" then "User" else uploadedBy
        nickname := some uploadedBy
        content := "📎 Uploaded: " ++ fileName
        timestamp := now
        fileData := some { name := fileName, url := fileUrl, type := mimeType, analysis := analysis }
        isFile := true }
    let rm2 := { rm1 with files := rm1.files ++ [fileInfo], messages := rm1.messages ++ [fileMessage] }
    let st1 : ServerState := { st with rooms := mapSet st.rooms roomId rm2 }
    let newTimers :=
      (if uploaderRole == "patient" then [Timer.patientNotice roomId uploadedBy fileName] else [])
      ++ (if decide (content.length > 20) then [Timer.doctorAnalysis roomId analysis] else [])
    ({ st1 with pending := st1.pending ++ newTimers },
     dsMetrics
     ++ broadcast st1 roomId (Payload.chatMsg fileMessage)
     ++ broadcast st1 roomId (Payload.filesUpdated rm2.files))

/-- The clinical-analysis message the doctor timer builds. -/
def mkDoctorAiMessage (analysis : String) (now : Nat) : Message :=
  { role := "AI Assistant"
    content := "🔬 **Clinical Analysis** (with XAI)\n\n" ++ analysis
    timestamp := now
    forRole := some "doctor"
    isPrivate := true }

/-- The reassurance message the patient timer builds. -/
def mkPatientAiMessage (fileName : String) (now : Nat) : Message :=
  { role := "AI Assistant"
    content := "✅ I" ++ apos ++ "ve received \"" ++ fileName
      ++ "\". Your doctor will review it shortly."
    timestamp := now
    forRole := some "patient"
    isPrivate := true }

/-- Firing one pending `setTimeout` callback of the upload handler, against the
live state.  The doctor callback looks the recipient up by `roomId` and
`role === "doctor"`; the patient callback looks it up by `nickname === uploadedBy`
and `roomId` only.  A vanished room makes the callback throw before any
mutation or emission in the source (no state change), modelled as a no-op;
the `rooms[roomId].doctor` truthiness test also fails on an empty nickname. -/
def fireTimer (st : ServerState) (t : Timer) (now : Nat) :
    ServerState × List (String × Payload) :=
  match t with
  | Timer.doctorAnalysis roomId analysis =>
    match st.users.find? (fun p => p.2.roomId == roomId && p.2.role == "doctor"),
          mapFind st.rooms roomId with
    | some dp, some rm =>
      if jsTruthy rm.doctor then
        let msg := mkDoctorAiMessage analysis now
        ({ st with rooms := mapSet st.rooms roomId { rm with messages := rm.messages ++ [msg] } },
         [(dp.1, Payload.aiMsg msg.content "doctor" true)])
      else (st, [])
    | _, _ => (st, [])
  | Timer.patientNotice roomId uploadedBy fileName =>
    match st.users.find? (fun p => p.2.nickname == uploadedBy && p.2.roomId == roomId),
          mapFind st.rooms roomId with
    | some pp, some rm =>
      let msg := mkPatientAiMessage fileName now
      ({ st with rooms := mapSet st.rooms roomId { rm with messages := rm.messages ++ [msg] } },
       [(pp.1, Payload.aiMsg msg.content "patient" true)])
    | _, _ => (st, [])

/-- The `start-video-call` socket handler. -/
def startVideoCallHandler (st : ServerState) (sid roomId : String) :
    ServerState × List (String × Payload) :=
  match mapFind st.users sid with
  | none => (st, [(sid, Payload.videoError "Only doctors can start video calls")])
  | some u =>
    if !(u.role == "doctor") then
      (st, [(sid, Payload.videoError "Only doctors can start video calls")])
    else
      match mapFind st.rooms roomId with
      | none => (st, [])
      | some rm =>
        let rm1 := { rm with videoCallActive := true, videoParticipants := ([] : List String) }
        let st1 : ServerState := { st with rooms := mapSet st.rooms roomId rm1 }
        (st1, broadcast st1 roomId (Payload.videoCallStarted u.nickname roomId))

/-- The `end-video-call` socket handler (a non-doctor request returns with no
emission at all). -/
def endVideoCallHandler (st : ServerState) (sid roomId : String) :
    ServerState × List (String × Payload) :=
  match mapFind st.users sid with
  | none => (st, [])
  | some u =>
    if !(u.role == "doctor") then (st, [])
    else
      match mapFind st.rooms roomId with
      | none => (st, [])
      | some rm =>
        let rm1 := { rm with videoCallActive := false, videoParticipants := ([] : List String) }
        let st1 : ServerState := { st with rooms := mapSet st.rooms roomId rm1 }
        (st1, broadcast st1 roomId (Payload.videoCallEnded u.nickname))

/-! ## Event system -/

/-- One client-visible stimulus.  Oracle parameters (model texts, parse
results, wall-clock values) travel with the event. -/
inductive Event where
  | createRoom (roomHash roomId doctorEmail patientEmail : String) (now : Nat)
  | joinRoom (sid roomId nickname role : String) (avatarUrl : Option String) (email : String)
  | disconnect (sid : String)
  | chatMessage (sid roomId message : String) (avatarUrl : Option String)
      (aiReply : String) (now : Nat)
  | upload (roomId uploadedBy uploaderRole fileName filePath fileUrl mimeType
      content analysisResult : String) (metricsParse : Option RawMetrics) (now : Nat)
  | startVideoCall (sid roomId : String)
  | endVideoCall (sid roomId : String)
  | fireNextTimer (now : Nat)
deriving DecidableEq, Repr

/-- One step of the single-threaded event loop. -/
def step (st : ServerState) : Event → ServerState × List (String × Payload)
  | Event.createRoom h r d p now => ((createRoomHandler st h r d p now).1, [])
  | Event.joinRoom sid r n ro av em => joinRoomHandler st sid r n ro av em
  | Event.disconnect sid => disconnectHandler st sid
  | Event.chatMessage sid r m av ai now => chatMessageHandler st sid r m av ai now
  | Event.upload r ub ur fn fp fu mt c ar mp now =>
      uploadHandler st r ub ur fn fp fu mt c ar mp now
  | Event.startVideoCall sid r => startVideoCallHandler st sid r
  | Event.endVideoCall sid r => endVideoCallHandler st sid r
  | Event.fireNextTimer now =>
      match st.pending with
      | [] => (st, [])
      | t :: rest => fireTimer { st with pending := rest } t now

/-- Run a sequence of events, collecting every delivery. -/
def run (st : ServerState) : List Event → ServerState × List (String × Payload)
  | [] => (st, [])
  | e :: es =>
    let r1 := step st e
    let r2 := run r1.1 es
    (r2.1, r1.2 ++ r2.2)

/-! ## Emergency detection (`detectEmergency`) -/

def EMERGENCY_KEYWORDS : List String :=
  ["chest pain", "heart attack", "can" ++ apos ++ "t breathe", "breathless",
   "severe bleeding", "unconscious", "stroke", "paralysis", "severe headache",
   "suicide", "overdose", "seizure", "choking", "anaphylaxis", "severe pain"]

def hasEmergencyKeyword (message : String) : Bool :=
  EMERGENCY_KEYWORDS.any (fun k => containsSub (lowerStr message) k)

/-- The classification the model returns when its call and JSON parse succeed. -/
structure EmergencyClassification where
  level : String
  reasoning : String
  urgentAdvice : String
deriving DecidableEq, Repr

/-- The object `detectEmergency` resolves with; fields the source leaves
undefined are `none`. -/
structure EmergencyResult where
  isEmergency : Bool
  level : Option String := none
  reasoning : Option String := none
  urgentAdvice : Option String := none
deriving DecidableEq, Repr

/-- `detectEmergency(message, userRole)` with the model call and `JSON.parse`
abstracted as `classify` (`none` = failure, handled by the `catch` branch). -/
def detectEmergency (message : String) (classify : Option EmergencyClassification) :
    EmergencyResult :=
  if !(hasEmergencyKeyword message) then { isEmergency := false }
  else
    match classify with
    | some r =>
        { isEmergency := r.level == "CRITICAL" || r.level == "HIGH"
          level := some r.level
          reasoning := some r.reasoning
          urgentAdvice := some r.urgentAdvice }
    | none =>
        { isEmergency := hasEmergencyKeyword message
          level := some "HIGH"
          reasoning := some "Keyword detected" }

/-! ## Socket rate limiter (`checkSocketRateLimit`) -/

/-- An entry of `socketRateLimits` (`IP -> { count, resetTime }`). -/
structure RateLimitEntry where
  count : Nat
  resetTime : Nat
deriving DecidableEq, Repr

/-- `checkSocketRateLimit(ip)` at wall-clock `now`, with the window constants
as parameters (the source reads them from the environment, defaulting to
10 requests per 6 hours). -/
def checkSocketRateLimit (maxReq windowMs : Nat) (limits : List (String × RateLimitEntry))
    (ip : String) (now : Nat) : Bool × List (String × RateLimitEntry) :=
  match mapFind limits ip with
  | none => (true, mapSet limits ip { count := 1, resetTime := now + windowMs })
  | some l =>
    if l.resetTime < now then
      (true, mapSet limits ip { count := 1, resetTime := now + windowMs })
    else if maxReq ≤ l.count then (false, limits)
    else (true, mapSet limits ip { count := l.count + 1, resetTime := l.resetTime })

/-- A sequence of checks from one source at the given times. -/
def rlRun (maxReq windowMs : Nat) (limits : List (String × RateLimitEntry)) (ip : String) :
    List Nat → List Bool × List (String × RateLimitEntry)
  | [] => ([], limits)
  | t :: ts =>
    let r := checkSocketRateLimit maxReq windowMs limits ip t
    let rest := rlRun maxReq windowMs r.2 ip ts
    (r.1 :: rest.1, rest.2)

/-! ## Concrete runs and states used by the claim checks -/

/-- A parsed metrics object for uploads whose extraction succeeds. -/
def rawM1 : RawMetrics :=
  { vitals := some [("heartRate", "120 bpm")]
    diagnosis := some { primary := "Hypertension", confidence := 80, riskLevel := "high",
                        summary := "Elevated blood pressure with tachycardia" }
    keyFindings := some []
    recommendations := some [] }

/-- A run in which the only connection declared role `doctor` with nickname
"Alice", and an upload names "Alice" as its uploader with
`uploaderRole = "patient"`; both scheduled timers then fire. -/
def c1Events : List Event :=
  [Event.joinRoom "s1" "r" "Alice" "doctor" none "doc@x",
   Event.upload "r" "Alice" "patient" "report.pdf" "/tmp/f" "/uploads/f" "application/pdf"
     "BP 190/120 HR 120 SpO2 82" "FULL CLINICAL ANALYSIS TEXT" (some rawM1) 5,
   Event.fireNextTimer 6,
   Event.fireNextTimer 7]

/-- A run in which a patient uploads an analyzable file while no doctor
connection is in the room, both timers fire, and a doctor joins afterwards. -/
def c2Events : List Event :=
  [Event.joinRoom "p1" "r" "Pat" "patient" none "pat@x",
   Event.upload "r" "Pat" "patient" "report.pdf" "/tmp/f" "/uploads/f" "application/pdf"
     "BP 190/120 HR 120 SpO2 82" "FULL CLINICAL ANALYSIS TEXT" (some rawM1) 5,
   Event.fireNextTimer 6,
   Event.fireNextTimer 7,
   Event.joinRoom "d1" "r" "Doc" "doctor" none "doc@x"]

/-- A run in which a patient is in the room during an analyzable upload and a
second patient joins after it. -/
def c3Events : List Event :=
  [Event.joinRoom "p1" "r" "Pat" "patient" none "pat@x",
   Event.upload "r" "Pat" "patient" "report.pdf" "/tmp/f" "/uploads/f" "application/pdf"
     "BP 190/120 HR 120 SpO2 82" "FULL CLINICAL ANALYSIS TEXT" (some rawM1) 5,
   Event.joinRoom "p2" "r" "Kin" "patient" none "kin@x"]

/-- Two sequential uploads into one room: metrics extraction succeeds on the
first and fails (model error or unparsable reply) on the second. -/
def c5Events : List Event :=
  [Event.createRoom "h5" "r5" "doc@x" "pat@x" 0,
   Event.upload "r5" "Doc" "doctor" "a.pdf" "/tmp/a" "/uploads/a" "application/pdf"
     "HR 120 BP 190/120 SpO2 82" "ANALYSIS ONE" (some rawM1) 1,
   Event.upload "r5" "Doc" "doctor" "b.pdf" "/tmp/b" "/uploads/b" "application/pdf"
     "HR 121 BP 191/121 SpO2 81" "ANALYSIS TWO" none 2]

/-- Two same-role connections join the same room in turn, so the second is the
slot's last writer. -/
def c7Pre : List Event :=
  [Event.joinRoom "s1" "ra" "A" "patient" none "a@x",
   Event.joinRoom "s2" "ra" "B" "patient" none "b@x"]

/-- A room created with bound doctor email "doc@x"; a connection that declared
role `doctor` but a different email joins, along with the invited patient. -/
def c8Pre : List Event :=
  [Event.createRoom "h8" "r8" "doc@x" "pat@x" 0,
   Event.joinRoom "d1" "r8" "Eve" "doctor" none "eve@y",
   Event.joinRoom "p1" "r8" "Pat" "patient" none "pat@x"]

def st8 : ServerState := (run initialState c8Pre).1

/-- A room with one patient connection. -/
def stC : ServerState :=
  (run initialState [Event.joinRoom "p1" "r" "Pat" "patient" none "pat@x"]).1

/-- The spec scenario message (its keyword list entry is built with `apos`). -/
def msg6 : String := "chest pain, can" ++ apos ++ "t breathe"

/-- The result `detectEmergency` degrades to when the classifier call fails. -/
def failsafeResult : EmergencyResult :=
  { isEmergency := true
    level := some "HIGH"
    reasoning := some "Keyword detected"
    urgentAdvice := none }

/-- The chat message object the handler builds for `msg6` sent by `stC`'s
patient at time 3. -/
def cm6 : Message :=
  { role := "Patient"
    nickname := some "Pat"
    content := msg6
    timestamp := 3 }

def uW4 : UserInfo :=
  { roomId := "r", nickname := "A", role := "patient", avatarUrl := none, email := "a@x" }

/-- A room with a patient ("s1") and a doctor ("s2") connection. -/
def stW4 : ServerState :=
  { rooms := [("r", lazyRoom)]
    users := [("s1", uW4),
              ("s2", { roomId := "r", nickname := "D", role := "doctor", avatarUrl := none,
                       email := "d@x" })]
    roomInvitations := []
    membership := [("r", ["s1", "s2"])]
    pending := [] }

def rmW2 : Room := { lazyRoom with patient := some "Pat" }

def uW7 : UserInfo :=
  { roomId := "r", nickname := "Pat", role := "patient", avatarUrl := none, email := "pat@x" }

/-- A room whose only connection is a patient. -/
def stW2 : ServerState :=
  { rooms := [("r", rmW2)]
    users := [("p1", uW7)]
    roomInvitations := []
    membership := [("r", ["p1"])]
    pending := [] }

/-! ## Properties of the map helpers -/

theorem mapFind_mapSet_self {α : Type} (m : List (String × α)) (k : String) (v : α) :
    mapFind (mapSet m k v) k = some v := by
  induction m with
  | nil => simp [mapFind, mapSet, List.find?]
  | cons p rest ih =>
    by_cases h : (p.1 == k) = true
    · simp [mapSet, h, mapFind, List.find?]
    · simp only [mapSet, h]
      simp only [Bool.false_eq_true, if_false]
      simpa [mapFind, List.find?, h] using ih

theorem mapFind_mapVals {α β : Type} (g : α → β) (m : List (String × α)) (k : String) :
    mapFind (m.map (fun p => (p.1, g p.2))) k = (mapFind m k).map g := by
  induction m with
  | nil => simp [mapFind]
  | cons p rest ih =>
    by_cases h : (p.1 == k) = true
    · simp [mapFind, List.find?, h]
    · simpa [mapFind, List.find?, h] using ih

/-! ## Properties of the rate-limit checker -/

theorem rlRun_append (maxReq windowMs : Nat) (ip : String) (ts1 : List Nat) :
    ∀ (limits : List (String × RateLimitEntry)) (ts2 : List Nat),
      rlRun maxReq windowMs limits ip (ts1 ++ ts2)
        = ((rlRun maxReq windowMs limits ip ts1).1
            ++ (rlRun maxReq windowMs (rlRun maxReq windowMs limits ip ts1).2 ip ts2).1,
           (rlRun maxReq windowMs (rlRun maxReq windowMs limits ip ts1).2 ip ts2).2) := by
  induction ts1 with
  | nil => intro limits ts2; simp [rlRun]
  | cons t ts ih =>
    intro limits ts2
    simp [rlRun, ih]

/-- Checks from a source whose window entry has room left are all admitted and
only bump the counter. -/
theorem rlRun_all_allowed (maxReq windowMs R : Nat) (ip : String) :
    ∀ (ts : List Nat) (limits : List (String × RateLimitEntry)) (c : Nat),
      mapFind limits ip = some { count := c, resetTime := R } →
      (∀ t ∈ ts, t ≤ R) → c + ts.length ≤ maxReq →
      ∃ limits2, rlRun maxReq windowMs limits ip ts = (List.replicate ts.length true, limits2) ∧
        mapFind limits2 ip = some { count := c + ts.length, resetTime := R } := by
  intro ts
  induction ts with
  | nil =>
    intro limits c hfind _ _
    exact ⟨limits, by simp [rlRun], by simpa using hfind⟩
  | cons t ts ih =>
    intro limits c hfind hts hc
    have ht : t ≤ R := hts t (by simp)
    have hlt : ¬ (R < t) := by omega
    have hcnt : ¬ (maxReq ≤ c) := by
      simp [List.length_cons] at hc
      omega
    have hstep : checkSocketRateLimit maxReq windowMs limits ip t
        = (true, mapSet limits ip { count := c + 1, resetTime := R }) := by
      simp [checkSocketRateLimit, hfind, hlt, hcnt]
    obtain ⟨limits2, hrun, hfind2⟩ := ih (mapSet limits ip { count := c + 1, resetTime := R })
      (c + 1) (mapFind_mapSet_self _ _ _) (fun x hx => hts x (by simp [hx]))
      (by simp [List.length_cons] at hc ⊢; omega)
    refine ⟨limits2, ?_, ?_⟩
    · simp [rlRun, hstep, hrun, List.replicate_succ]
    · simpa [Nat.add_assoc, Nat.add_comm 1 ts.length] using hfind2

/-! ## Claim checks -/

/-- C1 (violated by the code): in the reachable run `c1Events` — the only
connection in room "r" declared role `doctor` with nickname "Alice", an upload
names "Alice" as uploader with `uploaderRole = "patient"`, and the scheduled
timers fire — the private reassurance Message tagged `forRole = patient` is
delivered to that doctor-role connection (the patient timer selects its
recipient by nickname and room only, without checking the role), while the
message is retained in the room's log.  The claimed role-isolation invariant
therefore fails on the code. -/
theorem c1_private_patient_message_to_doctor :
    ((run initialState c1Events).2.contains
      ("s1", Payload.aiMsg (mkPatientAiMessage "report.pdf" 6).content "patient" true)) = true ∧
    (mapFind (run initialState c1Events).1.users "s1").map UserInfo.role = some "doctor" ∧
    ((mapFind (run initialState c1Events).1.rooms "r").map
      (fun rm => rm.messages.any (fun m => m.forRole == some "patient"))) = some true := by
  refine ⟨by decide, by decide, by decide⟩

/-- C2 counterexample: in the reachable run `c2Events` a patient uploads a
file whose extracted content is longer than 20 characters while no doctor
connection is in the room; after both timers fire (and a doctor then joins),
the room's log contains no Message with `forRole = doctor` — the clinical
analysis was not appended for later replay, contrary to the claim. -/
theorem c2_counterexample_no_doctor_no_retention :
    ("BP 190/120 HR 120 SpO2 82".length > 20) ∧
    ((mapFind (run initialState c2Events).1.rooms "r").map
      (fun rm => rm.messages.any (fun m => m.forRole == some "doctor"))) = some false := by
  refine ⟨by decide, by decide⟩

/-- C2 (amended): when the delayed clinical-analysis task fires, the
`forRole = doctor` message is appended to the log and emitted — to the first
doctor-role connection of the room only — exactly when such a connection
exists and the room's doctor slot is a non-empty nickname; when no doctor-role
connection is present (or the slot is empty) the state is unchanged and
nothing is emitted, so nothing is retained for a later-joining doctor. -/
theorem c2_doctor_analysis_requires_doctor (st : ServerState) (roomId analysis : String)
    (now : Nat) (rm : Room) (hr : mapFind st.rooms roomId = some rm) :
    (st.users.find? (fun p => p.2.roomId == roomId && p.2.role == "doctor") = none →
       fireTimer st (Timer.doctorAnalysis roomId analysis) now = (st, [])) ∧
    (jsTruthy rm.doctor = false →
       fireTimer st (Timer.doctorAnalysis roomId analysis) now = (st, [])) ∧
    (∀ dp, st.users.find? (fun p => p.2.roomId == roomId && p.2.role == "doctor") = some dp →
       jsTruthy rm.doctor = true →
       dp.2.role = "doctor" ∧
       (mapFind (fireTimer st (Timer.doctorAnalysis roomId analysis) now).1.rooms roomId).map
           Room.messages
         = some (rm.messages ++ [mkDoctorAiMessage analysis now]) ∧
       (fireTimer st (Timer.doctorAnalysis roomId analysis) now).2
         = [(dp.1, Payload.aiMsg (mkDoctorAiMessage analysis now).content "doctor" true)]) := by
  refine ⟨?_, ?_, ?_⟩
  · intro hfind
    simp [fireTimer, hfind]
  · intro hdoc
    cases hfind : st.users.find? (fun p => p.2.roomId == roomId && p.2.role == "doctor") with
    | none => simp [fireTimer, hfind]
    | some dp => simp [fireTimer, hfind, hr, hdoc]
  · intro dp hfind hdoc
    have hrole : dp.2.role = "doctor" := by
      have h1 := List.find?_some hfind
      have h2 : (dp.2.role == "doctor") = true :=
        (Bool.and_eq_true _ _ |>.mp h1).2
      exact eq_of_beq h2
    refine ⟨hrole, ?_, ?_⟩
    · simp [fireTimer, hfind, hr, hdoc, mapFind_mapSet_self]
    · simp [fireTimer, hfind, hr, hdoc]

/-- C2 witness: in a room whose only connection is a patient, firing the
doctor-analysis timer changes nothing and delivers nothing. -/
theorem c2_witness :
    fireTimer stW2 (Timer.doctorAnalysis "r" "SOME ANALYSIS") 9 = (stW2, []) := by
  exact (c2_doctor_analysis_requires_doctor stW2 "r" "SOME ANALYSIS" 9 rmW2 (by decide)).1
    (by decide)

/-- C3 (violated by the code): in the reachable run `c3Events` the patient
connection "p1" receives the full clinical analysis text inside the broadcast
upload chat message's `fileData.analysis` and inside the `files-updated` list,
and the patient "p2" joining later receives it inside the `room-history` file
list — so non-doctor connections do receive the full clinical analysis through
the upload's emitted events, contrary to the claim. -/
theorem c3_full_analysis_broadcast_to_patient :
    ((run initialState c3Events).2.any (fun d => d.1 == "p1" && (match d.2 with
       | Payload.chatMsg m => (m.fileData.map FileData.analysis) == some "FULL CLINICAL ANALYSIS TEXT"
       | _ => false))) = true ∧
    ((run initialState c3Events).2.any (fun d => d.1 == "p1" && (match d.2 with
       | Payload.filesUpdated fs => fs.any (fun f => f.analysis == "FULL CLINICAL ANALYSIS TEXT")
       | _ => false))) = true ∧
    ((run initialState c3Events).2.any (fun d => d.1 == "p2" && (match d.2 with
       | Payload.roomHistory _ fs => fs.any (fun f => f.analysis == "FULL CLINICAL ANALYSIS TEXT")
       | _ => false))) = true ∧
    (mapFind (run initialState c3Events).1.users "p1").map UserInfo.role = some "patient" ∧
    (mapFind (run initialState c3Events).1.users "p2").map UserInfo.role = some "patient" := by
  refine ⟨by decide, by decide, by decide, by decide, by decide⟩

/-- C4: for any inbound chat message from a registered connection into an
existing room, if the text contains "@ai" as a case-insensitive substring the
message is appended to the log and both the echo and the private AI reply are
delivered to the sending connection only; otherwise the message is appended
and the chat message is broadcast to every connection in the room. -/
theorem c4_ai_marker_routing (st : ServerState) (sid roomId message : String)
    (avatarUrl : Option String) (aiReply : String) (now : Nat) (u : UserInfo) (rm : Room)
    (hu : mapFind st.users sid = some u) (hr : mapFind st.rooms roomId = some rm) :
    (containsSub (lowerStr message) "@ai" = true →
       (chatMessageHandler st sid roomId message avatarUrl aiReply now).2
         = [(sid, Payload.chatMsg (mkChatMessage u message avatarUrl now)),
            (sid, Payload.aiMsg aiReply u.role true)] ∧
       (mapFind (chatMessageHandler st sid roomId message avatarUrl aiReply now).1.rooms roomId).map
           Room.messages
         = some (rm.messages
             ++ [mkChatMessage u message avatarUrl now, mkAiMessage aiReply u.role now])) ∧
    (containsSub (lowerStr message) "@ai" = false →
       (chatMessageHandler st sid roomId message avatarUrl aiReply now).2
         = broadcast st roomId (Payload.chatMsg (mkChatMessage u message avatarUrl now)) ∧
       (mapFind (chatMessageHandler st sid roomId message avatarUrl aiReply now).1.rooms roomId).map
           Room.messages
         = some (rm.messages ++ [mkChatMessage u message avatarUrl now])) := by
  constructor
  · intro hAi
    simp [chatMessageHandler, hu, hr, hAi, mapFind_mapSet_self]
  · intro hAi
    simp [chatMessageHandler, hu, hr, hAi, mapFind_mapSet_self, broadcast, roomMembers]

/-- C4 witness: in a room with a patient and a doctor, a patient message
containing "@AI" is delivered (echo plus AI reply) to the sender only. -/
theorem c4_witness :
    containsSub (lowerStr "hello @AI") "@ai" = true ∧
    (chatMessageHandler stW4 "s1" "r" "hello @AI" none "model reply" 1).2
      = [("s1", Payload.chatMsg (mkChatMessage uW4 "hello @AI" none 1)),
         ("s1", Payload.aiMsg "model reply" "patient" true)] := by
  have h := (c4_ai_marker_routing stW4 "s1" "r" "hello @AI" none "model reply" 1 uW4 lazyRoom
    (by decide) (by decide)).1 (by decide)
  exact ⟨by decide, h.1⟩

/-- C5 counterexample: in the reachable run `c5Events`, after a first upload
whose metrics extraction succeeds and a second whose extraction fails, the
room's `healthMetrics` equals the fixed "Analysis Error" fallback structure —
which differs from the first upload's extraction result — rather than being
left unchanged as the claim states. -/
theorem c5_counterexample_failed_extraction_overwrites :
    (mapFind (run initialState c5Events).1.rooms "r5").map Room.healthMetrics
      = some (some fallbackMetrics) ∧
    ¬ fallbackMetrics = extractHealthMetrics (some rawM1) := by
  refine ⟨by decide, by decide⟩

/-- C5 (amended): on every upload with analyzable content into an existing
room, the room's `healthMetrics` is overwritten wholesale with
`extractHealthMetrics` of that upload's parse result — the extraction result
on success, the fixed "Analysis Error" fallback on model/parse failure — with
no dependence on (hence no merge with) the previous snapshot. -/
theorem c5_metrics_wholesale (st : ServerState)
    (roomId uploadedBy uploaderRole fileName filePath fileUrl mimeType content analysisResult : String)
    (metricsParse : Option RawMetrics) (now : Nat) (rm : Room)
    (hr : mapFind st.rooms roomId = some rm)
    (hA : (decide (content.length > 20) && !(containsSub content "no text detected")) = true) :
    (mapFind (uploadHandler st roomId uploadedBy uploaderRole fileName filePath fileUrl mimeType
        content analysisResult metricsParse now).1.rooms roomId).map Room.healthMetrics
      = some (some (extractHealthMetrics metricsParse)) ∧
    extractHealthMetrics none = fallbackMetrics := by
  constructor
  · simp [uploadHandler, hr, hA, mapFind_mapSet_self]
  · rfl

/-- C5 witness: an upload with analyzable content and a failed extraction
stores exactly the fallback structure. -/
theorem c5_witness :
    (mapFind (uploadHandler stW2 "r" "Doc" "doctor" "a.pdf" "/tmp/a" "/uploads/a" "application/pdf"
        "HR 120 AND MORE DATA HERE" "AN" none 3).1.rooms "r").map Room.healthMetrics
      = some (some fallbackMetrics) ∧
    extractHealthMetrics none = fallbackMetrics := by
  have h := c5_metrics_wholesale stW2 "r" "Doc" "doctor" "a.pdf" "/tmp/a" "/uploads/a"
    "application/pdf" "HR 120 AND MORE DATA HERE" "AN" none 3 rmW2 (by decide) (by decide)
  exact ⟨h.1, h.2⟩

/-- C6 (violated by the code): the message of the spec's scenario matches the
emergency keyword list, and `detectEmergency` itself degrades to
`isEmergency = true` with level HIGH when the classifier call fails — but the
`chat-message` handler never invokes `detectEmergency`: its complete output on
that message is the plain broadcast of the chat message, with no classifier
call and no emergency information in any emitted payload. -/
theorem c6_emergency_detection_never_invoked :
    hasEmergencyKeyword msg6 = true ∧
    detectEmergency msg6 none = failsafeResult ∧
    (chatMessageHandler stC "p1" "r" msg6 none "model reply" 3).2
      = [("p1", Payload.chatMsg cm6)] := by
  refine ⟨by decide, by decide, by decide⟩

/-- C7 counterexample: two patients join room "ra" in turn, so the second owns
the nickname slot; when the first disconnects the slot is nevertheless cleared
to null instead of being left as the second's nickname. -/
theorem c7_counterexample_slot_cleared_without_ownership :
    (mapFind (run initialState c7Pre).1.rooms "ra").map Room.patient = some (some "B") ∧
    (mapFind (run initialState (c7Pre ++ [Event.disconnect "s1"])).1.rooms "ra").map Room.patient
      = some none := by
  refine ⟨by decide, by decide⟩

/-- C7 (amended): on disconnect of a registered connection whose room exists,
the nickname and avatar slot of that connection's role is cleared
unconditionally — with no check that the leaving connection is the slot's
last writer — and a `user-left` presence event is broadcast to the room's
remaining members. -/
theorem c7_disconnect_clears_unconditionally (st : ServerState) (sid : String)
    (u : UserInfo) (rm : Room)
    (hu : mapFind st.users sid = some u) (hr : mapFind st.rooms u.roomId = some rm) :
    ((u.role == "patient") = true →
       (mapFind (disconnectHandler st sid).1.rooms u.roomId).map
           (fun r => (r.patient, r.patientAvatar))
         = some (none, none)) ∧
    ((u.role == "patient") = false →
       (mapFind (disconnectHandler st sid).1.rooms u.roomId).map
           (fun r => (r.doctor, r.doctorAvatar))
         = some (none, none)) ∧
    (disconnectHandler st sid).2
      = ((roomMembers st u.roomId).filter (fun x => !(x == sid))).map
          (fun t => (t, Payload.userLeft u.nickname u.role
            (if u.role == "patient" then none else rm.patient)
            (if u.role == "patient" then rm.doctor else none))) := by
  refine ⟨?_, ?_, ?_⟩
  · intro h
    simp [disconnectHandler, hu, hr, h, mapFind_mapSet_self]
  · intro h
    simp [disconnectHandler, hu, hr, h, mapFind_mapSet_self]
  · by_cases h : (u.role == "patient") = true
    · simp [disconnectHandler, hu, hr, h, broadcast, roomMembers, mapFind_mapVals]
      cases mapFind st.membership u.roomId <;> simp
    · simp [disconnectHandler, hu, hr, h, broadcast, roomMembers, mapFind_mapVals]
      cases mapFind st.membership u.roomId <;> simp

/-- C7 witness: the patient slot is cleared when the room's only patient
disconnects. -/
theorem c7_witness :
    (mapFind (disconnectHandler stW2 "p1").1.rooms "r").map
        (fun r => (r.patient, r.patientAvatar))
      = some (none, none) := by
  exact (c7_disconnect_clears_unconditionally stW2 "p1" uW7 rmW2 (by decide) (by decide)).1
    (by decide)

/-- C8 counterexample: in the reachable state `st8` (room "r8" bound to doctor
email "doc@x"), an `end-video-call` from the patient connection is silently
ignored — no Forbidden-style error is delivered — and a `start-video-call`
from the connection that merely declared role `doctor` with the unrelated
email "eve@y" succeeds in activating the call, so the bound doctor identity is
not what is checked. -/
theorem c8_counterexample_silent_end_and_email_ignored :
    endVideoCallHandler st8 "p1" "r8" = (st8, []) ∧
    (mapFind st8.users "p1").map UserInfo.role = some "patient" ∧
    (mapFind st8.rooms "r8").map Room.doctorEmail = some (some "doc@x") ∧
    (mapFind st8.users "d1").map UserInfo.email = some "eve@y" ∧
    (mapFind (startVideoCallHandler st8 "d1" "r8").1.rooms "r8").map Room.videoCallActive
      = some true := by
  refine ⟨by decide, by decide, by decide, by decide, by decide⟩

/-- C8 (amended): a `start-video-call` from a connection that is unknown or
did not declare role `doctor` emits a `video-error` to the requester and
leaves the state (in particular `videoCallActive` and `videoParticipants`)
unchanged; an `end-video-call` from such a connection is ignored with no
emission and no state change.  The check is on the declared role only. -/
theorem c8_nondoctor_video_requests (st : ServerState) (sid roomId : String)
    (h : ∀ u, mapFind st.users sid = some u → (u.role == "doctor") = false) :
    startVideoCallHandler st sid roomId
      = (st, [(sid, Payload.videoError "Only doctors can start video calls")]) ∧
    endVideoCallHandler st sid roomId = (st, []) := by
  cases hfind : mapFind st.users sid with
  | none => simp [startVideoCallHandler, endVideoCallHandler, hfind]
  | some u =>
    have hu := h u hfind
    simp [startVideoCallHandler, endVideoCallHandler, hfind, hu]

/-- C8 witness: a patient connection's start request gets the error and its
end request is ignored, with the state unchanged in both cases. -/
theorem c8_witness :
    startVideoCallHandler stW2 "p1" "r"
      = (stW2, [("p1", Payload.videoError "Only doctors can start video calls")]) ∧
    endVideoCallHandler stW2 "p1" "r" = (stW2, []) := by
  refine c8_nondoctor_video_requests stW2 "p1" "r" ?_
  intro u hu
  have h2 : mapFind stW2.users "p1" = some uW7 := by decide
  rw [h2] at hu
  injection hu with h3
  subst h3
  decide

/-- C9: for a source with no window entry, a first check at `t0` and
`maxReq - 1` further checks at times within the window are all admitted, the
next in-window check is rejected, and a check after the window's reset time is
admitted again with a fresh window entry. -/
theorem c9_rate_limit_window (maxReq windowMs t0 : Nat)
    (limits : List (String × RateLimitEntry)) (ip : String)
    (ts : List Nat) (trej tnew : Nat)
    (h0 : mapFind limits ip = none) (hmax : 1 ≤ maxReq)
    (hlen : ts.length = maxReq - 1) (hts : ∀ t ∈ ts, t ≤ t0 + windowMs)
    (hrej : trej ≤ t0 + windowMs) (hnew : t0 + windowMs < tnew) :
    (rlRun maxReq windowMs limits ip (t0 :: (ts ++ [trej, tnew]))).1
      = List.replicate maxReq true ++ [false, true] ∧
    mapFind (rlRun maxReq windowMs limits ip (t0 :: (ts ++ [trej, tnew]))).2 ip
      = some { count := 1, resetTime := tnew + windowMs } := by
  obtain ⟨m, rfl⟩ : ∃ m, maxReq = m + 1 := ⟨maxReq - 1, by omega⟩
  have hlen2 : ts.length = m := by omega
  have hstep0 : checkSocketRateLimit (m + 1) windowMs limits ip t0
      = (true, mapSet limits ip { count := 1, resetTime := t0 + windowMs }) := by
    simp [checkSocketRateLimit, h0]
  obtain ⟨limits2, hrun, hfind2⟩ := rlRun_all_allowed (m + 1) windowMs (t0 + windowMs) ip ts
    (mapSet limits ip { count := 1, resetTime := t0 + windowMs }) 1
    (mapFind_mapSet_self _ _ _) hts (by omega)
  have hstepR : checkSocketRateLimit (m + 1) windowMs limits2 ip trej = (false, limits2) := by
    have h1 : ¬ (t0 + windowMs < trej) := by omega
    have h2 : m + 1 ≤ 1 + ts.length := by omega
    simp [checkSocketRateLimit, hfind2, h1, h2]
  have hstepN : checkSocketRateLimit (m + 1) windowMs limits2 ip tnew
      = (true, mapSet limits2 ip { count := 1, resetTime := tnew + windowMs }) := by
    simp [checkSocketRateLimit, hfind2, hnew]
  constructor
  · simp only [rlRun, hstep0]
    rw [rlRun_append]
    rw [hrun]
    simp [rlRun, hstepR, hstepN, hlen2, List.replicate_succ]
  · simp only [rlRun, hstep0]
    rw [rlRun_append]
    rw [hrun]
    simp [rlRun, hstepR, hstepN, mapFind_mapSet_self]

/-- C9 witness: with a limit of 2 and a 5-unit window, checks at times
0, 1, 2, 6 from one address yield allowed, allowed, rejected, allowed. -/
theorem c9_witness :
    (rlRun 2 5 [] "1.2.3.4" (0 :: ([1] ++ [2, 6]))).1
      = List.replicate 2 true ++ [false, true] := by
  exact (c9_rate_limit_window 2 5 0 [] "1.2.3.4" [1] 2 6 rfl (by decide) (by decide)
    (by decide) (by decide) (by decide)).1

/-- C10: `join-room` admits any connection with whatever room id, nickname,
role and email the client declares: the connection is bound exactly as
declared, the room is created lazily (with the lazy-init field set) when
absent, the declared role's nickname/avatar slot is overwritten last-writer-
wins regardless of its previous value, and the invitation registry is neither
consulted (the result is the same for every registry content) nor changed. -/
theorem c10_join_open_admission (st : ServerState) (sid roomId nickname role : String)
    (avatarUrl : Option String) (email : String) :
    mapFind (joinRoomHandler st sid roomId nickname role avatarUrl email).1.users sid
      = some { roomId := roomId, nickname := nickname, role := role,
               avatarUrl := avatarUrl, email := email } ∧
    (mapFind st.rooms roomId = none →
      mapFind (joinRoomHandler st sid roomId nickname role avatarUrl email).1.rooms roomId
        = some (if (role == "patient") = true then
            { lazyRoom with patient := some nickname, patientAvatar := avatarUrl }
          else { lazyRoom with doctor := some nickname, doctorAvatar := avatarUrl })) ∧
    (mapFind (joinRoomHandler st sid roomId nickname role avatarUrl email).1.rooms roomId).map
        (fun rm => if (role == "patient") = true then (rm.patient, rm.patientAvatar)
          else (rm.doctor, rm.doctorAvatar))
      = some (some nickname, avatarUrl) ∧
    (joinRoomHandler st sid roomId nickname role avatarUrl email).1.roomInvitations
      = st.roomInvitations ∧
    (∀ invs, joinRoomHandler { st with roomInvitations := invs } sid roomId nickname role avatarUrl email
        = ({ (joinRoomHandler st sid roomId nickname role avatarUrl email).1 with
              roomInvitations := invs },
           (joinRoomHandler st sid roomId nickname role avatarUrl email).2)) := by
  refine ⟨?_, ?_, ?_, ?_, ?_⟩
  · simp [joinRoomHandler, mapFind_mapSet_self]
  · intro hnone
    by_cases h : (role == "patient") = true <;>
      simp [joinRoomHandler, hnone, h, mapFind_mapSet_self]
  · by_cases h : (role == "patient") = true <;>
      simp [joinRoomHandler, h, mapFind_mapSet_self]
  · simp [joinRoomHandler]
  · intro invs
    rfl

/-- C10 witness: a join into a fresh room with the undeclared role "observer"
is admitted as declared, and (any role other than "patient") overwrites the
doctor slot. -/
theorem c10_witness :
    mapFind (joinRoomHandler initialState "s1" "r" "Nick" "observer" none "who@x").1.users "s1"
      = some { roomId := "r", nickname := "Nick", role := "observer", avatarUrl := none,
               email := "who@x" } ∧
    mapFind (joinRoomHandler initialState "s1" "r" "Nick" "observer" none "who@x").1.rooms "r"
      = some ({ lazyRoom with doctor := some "Nick", doctorAvatar := none }) := by
  have h := c10_join_open_admission initialState "s1" "r" "Nick" "observer" none "who@x"
  exact ⟨h.1, h.2.1 rfl⟩

end ArogyaMitra
